import Mathlib

/-
Verification of the tf.experimental.numpy aggregation module
(tensorflow/python/ops/numpy_ops/__init__.py).

The module binds re-exported names from sibling modules and defines three
aliasing wrappers:

  @np_utils.np_doc("max", ...)
  def max(a, axis=None, keepdims=None):
    return amax(a, axis=axis, keepdims=keepdims)

  @np_utils.np_doc("min", ...)
  def min(a, axis=None, keepdims=None):
    return amin(a, axis=axis, keepdims=keepdims)

  @np_utils.np_doc("round", ...)
  def round(a, decimals=0):
    return around(a, decimals=decimals)

The delegates amax, amin, around (from np_math_ops, brought in by a wildcard
import) and the helper module np_utils are part of this repository but are not
in the provided sources; the wrappers are therefore embedded parametrically in
an arbitrary delegate, and concrete model delegates are provided separately for
evaluation.
-/

set_option autoImplicit false

namespace NumpyOps

/-- Python values relevant to the wrapper calls: the constant None, integers,
booleans, strings, and a simple one-dimensional integer array standing for an
ndarray. Object identity plays no role in the wrapper claims, so structural
values suffice. -/
inductive PyVal where
  | vnone : PyVal
  | vint : Int → PyVal
  | vbool : Bool → PyVal
  | vstr : String → PyVal
  | varr : List Int → PyVal
  deriving DecidableEq, Repr

/-- Python exception kinds that can surface through these wrappers: TypeError
(raised by call binding on bad arguments) and ValueError (e.g. an invalid axis
inside a delegate). -/
inductive PyErr where
  | typeError : String → PyErr
  | valueError : String → PyErr
  deriving DecidableEq, Repr

/-- Result of running a piece of Python against an ambient state of type s:
either a value or a raised exception, together with the final state. The state
type is abstract so that any hidden effect a delegate might have is observable. -/
def Effect (s : Type) : Type := s → Except PyErr PyVal × s

/-- Type of a three-argument delegate such as amax or amin: positional array
argument plus axis and keepdims. -/
def Delegate3 (s : Type) : Type := PyVal → PyVal → PyVal → Effect s

/-- Type of a two-argument delegate such as around: array plus decimals. -/
def Delegate2 (s : Type) : Type := PyVal → PyVal → Effect s

/-- Modelled from the spec: np_utils.np_doc (np_utils is not in the provided
sources) attaches NumPy-style documentation metadata to a function and returns
it; per the spec the wrappers add no validation, error translation, or side
effects, so the decorator is behavior-transparent and is modelled as the
identity on the decorated function. -/
def np_doc {A : Type} (_docName : String) (f : A) : A := f

/-- Shallow embedding of the body of def max: return amax(a, axis=axis,
keepdims=keepdims). -/
def maxBody {s : Type} (amax : Delegate3 s) (a axis keepdims : PyVal) :
    Effect s :=
  amax a axis keepdims

/-- Shallow embedding of def max(a, axis=None, keepdims=None), decorated with
np_doc. Default parameter values mirror the Python defaults. -/
def max {s : Type} (amax : Delegate3 s) (a : PyVal)
    (axis : PyVal := PyVal.vnone) (keepdims : PyVal := PyVal.vnone) :
    Effect s :=
  np_doc "max" (maxBody amax) a axis keepdims

/-- Shallow embedding of the body of def min: return amin(a, axis=axis,
keepdims=keepdims). -/
def minBody {s : Type} (amin : Delegate3 s) (a axis keepdims : PyVal) :
    Effect s :=
  amin a axis keepdims

/-- Shallow embedding of def min(a, axis=None, keepdims=None), decorated with
np_doc. -/
def min {s : Type} (amin : Delegate3 s) (a : PyVal)
    (axis : PyVal := PyVal.vnone) (keepdims : PyVal := PyVal.vnone) :
    Effect s :=
  np_doc "min" (minBody amin) a axis keepdims

/-- Shallow embedding of the body of def round: return around(a,
decimals=decimals). -/
def roundBody {s : Type} (around : Delegate2 s) (a decimals : PyVal) :
    Effect s :=
  around a decimals

/-- Shallow embedding of def round(a, decimals=0), decorated with np_doc. -/
def round {s : Type} (around : Delegate2 s) (a : PyVal)
    (decimals : PyVal := PyVal.vint 0) : Effect s :=
  np_doc "round" (roundBody around) a decimals

/-- Signature of a Python positional-or-keyword parameter: its name and its
default value, if any. -/
structure Param where
  name : String
  dflt : Option PyVal
  deriving DecidableEq, Repr

/-- Parameter list of def max(a, axis=None, keepdims=None) and of def min. -/
def maxParams : List Param :=
  [⟨"a", Option.none⟩, ⟨"axis", Option.some PyVal.vnone⟩,
   ⟨"keepdims", Option.some PyVal.vnone⟩]

/-- Parameter list of def round(a, decimals=0). -/
def roundParams : List Param :=
  [⟨"a", Option.none⟩, ⟨"decimals", Option.some (PyVal.vint 0)⟩]

/-- Keyword arguments of a call, modelling the kwargs dict as an association
list with (in well-formed calls) distinct keys. -/
abbrev Kwargs : Type := List (String × PyVal)

/-- CPython argument binding for a positional-or-keyword parameter list:
positional arguments fill parameters left to right; remaining parameters are
filled from keywords or from defaults. Every failure mode of binding (too many
positional arguments, a parameter given both positionally and by keyword, an
unexpected keyword argument, a missing required argument) raises TypeError
before the function body runs. Returns the bound argument values in parameter
order. -/
def bindParams : List Param → List PyVal → Kwargs → Except PyErr (List PyVal)
  | [], [], kw =>
      if kw.isEmpty then Except.ok []
      else Except.error (PyErr.typeError "got an unexpected keyword argument")
  | [], _ :: _, _ =>
      Except.error (PyErr.typeError "too many positional arguments")
  | p :: ps, [], kw =>
      match kw.lookup p.name with
      | Option.some v =>
          (bindParams ps [] (kw.filter (fun q => q.1 ≠ p.name))).map
            (fun rest => v :: rest)
      | Option.none =>
          match p.dflt with
          | Option.some d =>
              (bindParams ps [] kw).map (fun rest => d :: rest)
          | Option.none =>
              Except.error (PyErr.typeError "missing a required argument")
  | p :: ps, v :: pos, kw =>
      if (kw.lookup p.name).isSome then
        Except.error (PyErr.typeError "got multiple values for argument")
      else
        (bindParams ps pos kw).map (fun rest => v :: rest)

/-- Python call semantics for max: bind the call arguments against the
signature (a, axis=None, keepdims=None); a binding failure raises before the
body runs, leaving the state untouched and never invoking the delegate;
otherwise run the embedded function on the bound arguments. -/
def callMax {s : Type} (amax : Delegate3 s) (pos : List PyVal) (kw : Kwargs) :
    Effect s :=
  fun st =>
    match bindParams maxParams pos kw with
    | Except.error e => (Except.error e, st)
    | Except.ok [a, axis, keepdims] => max amax a axis keepdims st
    | Except.ok _ => (Except.error (PyErr.typeError "arity"), st)

/-- Python call semantics for min, as for callMax. -/
def callMin {s : Type} (amin : Delegate3 s) (pos : List PyVal) (kw : Kwargs) :
    Effect s :=
  fun st =>
    match bindParams maxParams pos kw with
    | Except.error e => (Except.error e, st)
    | Except.ok [a, axis, keepdims] => min amin a axis keepdims st
    | Except.ok _ => (Except.error (PyErr.typeError "arity"), st)

/-- Python call semantics for round, binding against (a, decimals=0). -/
def callRound {s : Type} (around : Delegate2 s) (pos : List PyVal)
    (kw : Kwargs) : Effect s :=
  fun st =>
    match bindParams roundParams pos kw with
    | Except.error e => (Except.error e, st)
    | Except.ok [a, decimals] => round around a decimals st
    | Except.ok _ => (Except.error (PyErr.typeError "arity"), st)

/-- Modelled from the spec: a concrete maximum-reduction delegate standing in
for amax (np_math_ops is not in the provided sources). On the one-dimensional
array model it reduces over axis None or 0 to the maximum element, honours
keepdims by keeping a length-one array, raises ValueError on an invalid axis or
an empty reduction, and has no state effect. Used only to evaluate the
parametric theorems on concrete inputs. -/
def amaxModel : Delegate3 Unit := fun a axis keepdims st =>
  match a with
  | PyVal.varr xs =>
      match axis with
      | PyVal.vnone =>
          match xs with
          | [] => (Except.error (PyErr.valueError "zero-size reduction"), st)
          | x :: rest =>
              let m := rest.foldl (fun acc y => if acc < y then y else acc) x
              match keepdims with
              | PyVal.vbool true => (Except.ok (PyVal.varr [m]), st)
              | _ => (Except.ok (PyVal.vint m), st)
      | PyVal.vint 0 =>
          match xs with
          | [] => (Except.error (PyErr.valueError "zero-size reduction"), st)
          | x :: rest =>
              let m := rest.foldl (fun acc y => if acc < y then y else acc) x
              match keepdims with
              | PyVal.vbool true => (Except.ok (PyVal.varr [m]), st)
              | _ => (Except.ok (PyVal.vint m), st)
      | _ => (Except.error (PyErr.valueError "axis out of bounds"), st)
  | _ => (Except.error (PyErr.valueError "not an array"), st)

/-- Modelled from the spec: a concrete minimum-reduction delegate standing in
for amin, symmetric to amaxModel. -/
def aminModel : Delegate3 Unit := fun a axis keepdims st =>
  match a with
  | PyVal.varr xs =>
      match axis with
      | PyVal.vnone =>
          match xs with
          | [] => (Except.error (PyErr.valueError "zero-size reduction"), st)
          | x :: rest =>
              let m := rest.foldl (fun acc y => if y < acc then y else acc) x
              match keepdims with
              | PyVal.vbool true => (Except.ok (PyVal.varr [m]), st)
              | _ => (Except.ok (PyVal.vint m), st)
      | _ => (Except.error (PyErr.valueError "axis out of bounds"), st)
  | _ => (Except.error (PyErr.valueError "not an array"), st)

/-- Modelled from the spec: a concrete rounding delegate standing in for
around. On the integer array model, rounding to a nonnegative number of
decimals is the identity; a non-integer decimals raises TypeError. -/
def aroundModel : Delegate2 Unit := fun a decimals st =>
  match decimals with
  | PyVal.vint d =>
      if 0 ≤ d then
        match a with
        | PyVal.varr xs => (Except.ok (PyVal.varr xs), st)
        | PyVal.vint n => (Except.ok (PyVal.vint n), st)
        | _ => (Except.error (PyErr.valueError "not an array"), st)
      else
        match a with
        | PyVal.varr xs =>
            (Except.ok (PyVal.varr (xs.map (fun _ => 0))), st)
        | _ => (Except.error (PyErr.valueError "not an array"), st)
  | _ => (Except.error (PyErr.typeError "decimals must be an integer"), st)

/-- Namespace of a Python module: an association list from attribute names to
object identities (heap references, modelled as natural numbers). The first
binding for a name is the current one, so prepending models rebinding. -/
abbrev ModuleNS : Type := List (String × Nat)

/-- Modelled from the spec: the modules this file imports from — the standard
library module named dunder-future (whose feature objects the three future
statements bind) and the siblings array_ops, np_random, np_utils,
np_array_ops, np_arrays, np_dtypes, np_math_ops — are not in the provided
sources, so their namespaces and module object identities are abstract
parameters. -/
structure Sources where
  future_ns : ModuleNS
  array_ops : ModuleNS
  np_random_obj : Nat
  np_utils_obj : Nat
  np_utils_ns : ModuleNS
  np_array_ops : ModuleNS
  np_arrays : ModuleNS
  np_dtypes : ModuleNS
  np_math_ops : ModuleNS

/-- Test for a private module attribute: a name starting with an underscore. -/
def isPrivate (n : String) : Bool :=
  match n.data with
  | [] => false
  | c :: _ => c == '_'

/-- Public names of a module, as taken by a wildcard import when the module
defines no explicit export list: every binding whose name does not start with
an underscore. -/
def publicNS (m : ModuleNS) : ModuleNS :=
  m.filter (fun p => !(isPrivate p.1))

/-- Semantics of the statement from m import x: bind the name x in the current
namespace to the very object m binds it to (reference copy, not a value copy).
A missing name would abort the module load with ImportError; the namespace
model covers the successful load the claims presuppose. -/
def importFrom (ns : ModuleNS) (src : ModuleNS) (n : String) : ModuleNS :=
  match src.lookup n with
  | Option.some o => (n, o) :: ns
  | Option.none => ns

/-- Semantics of the statement from m import *: bind every public name of m to
the identical object m binds it to. -/
def importStar (ns : ModuleNS) (src : ModuleNS) : ModuleNS :=
  publicNS src ++ ns

/-- Namespace of tensorflow.python.ops.numpy_ops built by executing the
statements of the source file in order: the three future-feature imports
(which bind the names absolute_import, division and print_function as module
attributes), the explicit imports of newaxis, random, np_utils, ndarray,
finfo, promote_types and result_type, the wildcard imports of np_array_ops,
np_dtypes and np_math_ops, and the three function definitions max, min, round
(fresh objects maxObj, minObj, roundObj). -/
def numpyNamespace (S : Sources) (maxObj minObj roundObj : Nat) : ModuleNS :=
  let nsA := importFrom [] S.future_ns "absolute_import"
  let nsB := importFrom nsA S.future_ns "division"
  let nsC := importFrom nsB S.future_ns "print_function"
  let ns1 := importFrom nsC S.array_ops "newaxis"
  let ns2 := ("random", S.np_random_obj) :: ns1
  let ns3 := ("np_utils", S.np_utils_obj) :: ns2
  let ns4 := importStar ns3 S.np_array_ops
  let ns5 := importFrom ns4 S.np_arrays "ndarray"
  let ns6 := importStar ns5 S.np_dtypes
  let ns7 := importStar ns6 S.np_math_ops
  let ns8 := importFrom ns7 S.np_utils_ns "finfo"
  let ns9 := importFrom ns8 S.np_utils_ns "promote_types"
  let ns10 := importFrom ns9 S.np_utils_ns "result_type"
  ("round", roundObj) :: ("min", minObj) :: ("max", maxObj) :: ns10

/-- Every binding any source module offers, together with the bindings of the
two module objects imported as whole modules (random, np_utils). A binding of
the built namespace preserves identity when it occurs here. -/
def sourceBindings (S : Sources) : ModuleNS :=
  ("random", S.np_random_obj) :: ("np_utils", S.np_utils_obj) ::
    (S.future_ns ++ S.array_ops ++ S.np_array_ops ++ S.np_arrays ++
      S.np_dtypes ++ S.np_math_ops ++ S.np_utils_ns)

/-- Names bound in a namespace. -/
def nsNames (ns : ModuleNS) : List String := ns.map Prod.fst

/-- Modelled from the spec: the set of exposed names as the specification
enumerates it, namely the array construction and manipulation functions (the
public names of np_array_ops), the dtype set (public names of np_dtypes), the
math operations (public names of np_math_ops), the random submodule, the
utility functions finfo, promote_types and result_type, and the three alias
functions max, min and round. -/
def claimedNames (S : Sources) : List String :=
  nsNames (publicNS S.np_array_ops) ++ nsNames (publicNS S.np_dtypes) ++
    nsNames (publicNS S.np_math_ops) ++
    ["random", "finfo", "promote_types", "result_type", "max", "min", "round"]

/-- Concrete example instantiation of the missing sibling modules, used to
evaluate the namespace theorems. -/
def sampleSources : Sources where
  future_ns := [("absolute_import", 50), ("division", 51),
    ("print_function", 52)]
  array_ops := [("newaxis", 1), ("_private_helper", 2)]
  np_random_obj := 3
  np_utils_obj := 4
  np_utils_ns := [("finfo", 5), ("promote_types", 6), ("result_type", 7),
    ("np_doc", 8)]
  np_array_ops := [("zeros", 10), ("ones", 11), ("reshape", 12)]
  np_arrays := [("ndarray", 20)]
  np_dtypes := [("int32", 30), ("float64", 31)]
  np_math_ops := [("amax", 40), ("amin", 41), ("around", 42), ("add", 43)]

/-- Classifier for an outcome that is a raised TypeError. -/
def raisedTypeError {A : Type} : Except PyErr A → Bool
  | Except.error (PyErr.typeError _) => true
  | _ => false

/-- Identity-preserving re-export: every binding of a namespace is either one
of the locally defined bindings or exactly a binding offered by a source
module — the same object reference, not a copy or a wrapper. -/
def identityPreserving (ns defs srcs : ModuleNS) : Prop :=
  ∀ p ∈ ns, p ∈ defs ∨ p ∈ srcs

/-- Accessibility of a whole family of re-exports: every name bound in the
source list resolves in the namespace. -/
def allAccessible (src ns : ModuleNS) : Prop :=
  ∀ p ∈ src, (ns.lookup p.1).isSome = true

/-
Sanity checks of the embedding on concrete inputs.
-/

example : NumpyOps.max amaxModel (PyVal.varr [1, 5, 3]) PyVal.vnone
    PyVal.vnone () = (Except.ok (PyVal.vint 5), ()) := rfl

example : callMax amaxModel [PyVal.varr [1, 5, 3]] [] () =
    (Except.ok (PyVal.vint 5), ()) := rfl

example : callMax amaxModel [PyVal.varr [1, 5, 3]]
    [("keepdims", PyVal.vbool true)] () =
    (Except.ok (PyVal.varr [5]), ()) := rfl

example : callMin aminModel [PyVal.varr [1, 5, 3]] [] () =
    (Except.ok (PyVal.vint 1), ()) := rfl

example : callRound aroundModel [PyVal.varr [1, 5, 3]] [] () =
    (Except.ok (PyVal.varr [1, 5, 3]), ()) := rfl

example : (callMax amaxModel [PyVal.varr [1, 5, 3]]
    [("out", PyVal.vnone)] ()).1 =
    Except.error (PyErr.typeError "got an unexpected keyword argument") := rfl

example : (callMax amaxModel [PyVal.varr [1, 2], PyVal.vint 3]
    [("axis", PyVal.vint 0)] ()).1 =
    Except.error (PyErr.typeError "got multiple values for argument") := rfl

/-- C1: the wrapper max returns exactly what the delegate amax returns, with
axis and keepdims forwarded unchanged — both as the embedded function applied
to bound arguments and through Python call semantics with positional or
keyword arguments. -/
theorem max_refines_amax {s : Type} (amax : Delegate3 s)
    (a axis keepdims : PyVal) (st : s) :
    NumpyOps.max amax a axis keepdims = amax a axis keepdims
    ∧ callMax amax [a, axis, keepdims] [] st = amax a axis keepdims st
    ∧ callMax amax [a] [("axis", axis), ("keepdims", keepdims)] st =
        amax a axis keepdims st := by
  exact ⟨rfl, rfl, rfl⟩

/-- C2: the wrapper min returns exactly what the delegate amin returns, with
axis and keepdims forwarded unchanged, both directly and through call
semantics. -/
theorem min_refines_amin {s : Type} (amin : Delegate3 s)
    (a axis keepdims : PyVal) (st : s) :
    NumpyOps.min amin a axis keepdims = amin a axis keepdims
    ∧ callMin amin [a, axis, keepdims] [] st = amin a axis keepdims st
    ∧ callMin amin [a] [("axis", axis), ("keepdims", keepdims)] st =
        amin a axis keepdims st := by
  exact ⟨rfl, rfl, rfl⟩

/-- C3: the wrapper round returns exactly what the delegate around returns
with decimals forwarded unchanged, and an omitted decimals defaults to 0, so
round applied to a alone equals around applied to a and 0. -/
theorem round_refines_around {s : Type} (around : Delegate2 s)
    (a d : PyVal) (st : s) :
    NumpyOps.round around a d = around a d
    ∧ NumpyOps.round around a = around a (PyVal.vint 0)
    ∧ callRound around [a, d] [] st = around a d st
    ∧ callRound around [a] [("decimals", d)] st = around a d st
    ∧ callRound around [a] [] st = around a (PyVal.vint 0) st := by
  exact ⟨rfl, rfl, rfl, rfl, rfl⟩

/-- C4: each wrapper raises exactly the error its delegate raises under the
same conditions, and raises none when the delegate returns a value: the raised
outcome of the wrapper call coincides with that of the delegate call, for
every error and every value. -/
theorem wrapper_errors_propagate {s : Type} (f g : Delegate3 s)
    (h : Delegate2 s) (a axis keepdims d : PyVal) (st : s) (e : PyErr)
    (v : PyVal) :
    ((NumpyOps.max f a axis keepdims st).1 = Except.error e ↔
      (f a axis keepdims st).1 = Except.error e)
    ∧ ((NumpyOps.max f a axis keepdims st).1 = Except.ok v ↔
      (f a axis keepdims st).1 = Except.ok v)
    ∧ ((NumpyOps.min g a axis keepdims st).1 = Except.error e ↔
      (g a axis keepdims st).1 = Except.error e)
    ∧ ((NumpyOps.min g a axis keepdims st).1 = Except.ok v ↔
      (g a axis keepdims st).1 = Except.ok v)
    ∧ ((NumpyOps.round h a d st).1 = Except.error e ↔
      (h a d st).1 = Except.error e)
    ∧ ((NumpyOps.round h a d st).1 = Except.ok v ↔
      (h a d st).1 = Except.ok v) := by
  exact ⟨Iff.rfl, Iff.rfl, Iff.rfl, Iff.rfl, Iff.rfl, Iff.rfl⟩

/-- C5: a wrapper call is observably a single delegate call: its value outcome
and its entire final state are those of the one delegate call, so any state
the delegate leaves untouched is untouched by the wrapper. -/
theorem wrapper_frame {s : Type} (f g : Delegate3 s) (h : Delegate2 s)
    (a axis keepdims d : PyVal) (st : s) :
    NumpyOps.max f a axis keepdims st = f a axis keepdims st
    ∧ (NumpyOps.max f a axis keepdims st).2 = (f a axis keepdims st).2
    ∧ NumpyOps.min g a axis keepdims st = g a axis keepdims st
    ∧ (NumpyOps.min g a axis keepdims st).2 = (g a axis keepdims st).2
    ∧ NumpyOps.round h a d st = h a d st
    ∧ (NumpyOps.round h a d st).2 = (h a d st).2 := by
  exact ⟨rfl, rfl, rfl, rfl, rfl, rfl⟩

/-- C8: omitting axis or keepdims in a call to max or min forwards None to the
delegate, both at the embedded function (default parameter values) and through
Python call semantics with only the array argument supplied. -/
theorem omitted_args_default_none {s : Type} (f g : Delegate3 s) (a : PyVal)
    (st : s) :
    NumpyOps.max f a = f a PyVal.vnone PyVal.vnone
    ∧ NumpyOps.min g a = g a PyVal.vnone PyVal.vnone
    ∧ callMax f [a] [] st = f a PyVal.vnone PyVal.vnone st
    ∧ callMin g [a] [] st = g a PyVal.vnone PyVal.vnone st := by
  exact ⟨rfl, rfl, rfl, rfl⟩

/-- Mapping a function over a binding outcome preserves whether it is a raised
TypeError. -/
theorem raisedTypeError_map (r : Except PyErr (List PyVal))
    (f : List PyVal → List PyVal) :
    raisedTypeError (r.map f) = raisedTypeError r := by
  cases r with
  | error e => cases e <;> rfl
  | ok xs => rfl

/-- A raised-TypeError outcome is literally an error built from typeError. -/
theorem eq_typeError_of_raised {A : Type} (r : Except PyErr A)
    (h : raisedTypeError r = true) :
    ∃ m, r = Except.error (PyErr.typeError m) := by
  cases r with
  | error e =>
      cases e with
      | typeError m => exact ⟨m, rfl⟩
      | valueError m => simp [raisedTypeError] at h
  | ok x => simp [raisedTypeError] at h

/-- Argument binding raises a TypeError whenever the keyword arguments carry a
name that is not among the parameter names. -/
theorem bindParams_unknown_kwarg (k : String) (v : PyVal) :
    ∀ (params : List Param) (pos : List PyVal) (kw : Kwargs),
      (k, v) ∈ kw → k ∉ params.map Param.name →
      raisedTypeError (bindParams params pos kw) = true := by
  intro params
  induction params with
  | nil =>
      intro pos kw hk _
      cases pos with
      | nil =>
          have hne : kw.isEmpty = false := by
            cases kw with
            | nil => cases hk
            | cons q l => rfl
          simp [bindParams, hne, raisedTypeError]
      | cons q qs => rfl
  | cons p ps ih =>
      intro pos kw hk hn
      have hkp : ¬ k = p.name := by
        intro hkn
        exact hn (by simp [List.map, hkn])
      have hn2 : k ∉ ps.map Param.name := by
        intro hmem
        exact hn (by simp [List.map, hmem])
      cases pos with
      | nil =>
          cases hlu : kw.lookup p.name with
          | some v0 =>
              have hk2 : (k, v) ∈ kw.filter (fun q => q.1 ≠ p.name) := by
                rw [List.mem_filter]
                exact ⟨hk, by simpa using hkp⟩
              simp only [bindParams, hlu, raisedTypeError_map]
              exact ih [] _ hk2 hn2
          | none =>
              cases hd : p.dflt with
              | some d =>
                  simp only [bindParams, hlu, hd, raisedTypeError_map]
                  exact ih [] kw hk hn2
              | none => simp [bindParams, hlu, hd, raisedTypeError]
      | cons v0 pos2 =>
          cases hlu : (kw.lookup p.name).isSome with
          | true => simp [bindParams, hlu, raisedTypeError]
          | false =>
              simp only [bindParams, hlu, Bool.false_eq_true, if_false,
                raisedTypeError_map]
              exact ih pos2 kw hk hn2

/-- Argument binding raises a TypeError whenever more positional arguments are
supplied than there are parameters. -/
theorem bindParams_pos_overflow :
    ∀ (params : List Param) (pos : List PyVal) (kw : Kwargs),
      params.length < pos.length →
      raisedTypeError (bindParams params pos kw) = true := by
  intro params
  induction params with
  | nil =>
      intro pos kw hlen
      cases pos with
      | nil => simp at hlen
      | cons v ps => rfl
  | cons p ps ih =>
      intro pos kw hlen
      cases pos with
      | nil => simp at hlen
      | cons v0 pos2 =>
          cases hlu : (kw.lookup p.name).isSome with
          | true => simp [bindParams, hlu, raisedTypeError]
          | false =>
              simp only [bindParams, hlu, Bool.false_eq_true, if_false,
                raisedTypeError_map]
              exact ih pos2 kw (by simpa using hlen)

/-- Helper: when binding against the max/min signature fails with a TypeError,
the call raises that TypeError with the state untouched and with the delegate
never invoked (the outcome is the same for every delegate). -/
theorem callMax_rejected {s : Type} (f f2 : Delegate3 s) (pos : List PyVal)
    (kw : Kwargs) (st : s)
    (hb : raisedTypeError (bindParams maxParams pos kw) = true) :
    raisedTypeError (callMax f pos kw st).1 = true
    ∧ (callMax f pos kw st).2 = st
    ∧ callMax f pos kw st = callMax f2 pos kw st := by
  obtain ⟨m, hm⟩ := eq_typeError_of_raised _ hb
  refine ⟨?_, ?_, ?_⟩ <;> simp [callMax, hm, raisedTypeError]

/-- Helper: the rejected-call facts for callMin, as for callMax. -/
theorem callMin_rejected {s : Type} (g g2 : Delegate3 s) (pos : List PyVal)
    (kw : Kwargs) (st : s)
    (hb : raisedTypeError (bindParams maxParams pos kw) = true) :
    raisedTypeError (callMin g pos kw st).1 = true
    ∧ (callMin g pos kw st).2 = st
    ∧ callMin g pos kw st = callMin g2 pos kw st := by
  obtain ⟨m, hm⟩ := eq_typeError_of_raised _ hb
  refine ⟨?_, ?_, ?_⟩ <;> simp [callMin, hm, raisedTypeError]

/-- Helper: the rejected-call facts for callRound. -/
theorem callRound_rejected {s : Type} (h h2 : Delegate2 s) (pos : List PyVal)
    (kw : Kwargs) (st : s)
    (hb : raisedTypeError (bindParams roundParams pos kw) = true) :
    raisedTypeError (callRound h pos kw st).1 = true
    ∧ (callRound h pos kw st).2 = st
    ∧ callRound h pos kw st = callRound h2 pos kw st := by
  obtain ⟨m, hm⟩ := eq_typeError_of_raised _ hb
  refine ⟨?_, ?_, ?_⟩ <;> simp [callRound, hm, raisedTypeError]

/-- C9: supplying any argument beyond the declared parameters — a keyword
argument outside a, axis, keepdims for max and min, outside a, decimals for
round, or more positional arguments than parameters — makes the call fail
with a TypeError before the delegate is ever invoked: the state is untouched
and the outcome is identical for every delegate. -/
theorem extra_args_type_error {s : Type} (f f2 g g2 : Delegate3 s)
    (h h2 : Delegate2 s) (pos : List PyVal) (kw : Kwargs) (st : s)
    (k : String) (v : PyVal) :
    ((k, v) ∈ kw → k ∉ (["a", "axis", "keepdims"] : List String) →
      (raisedTypeError (callMax f pos kw st).1 = true
        ∧ (callMax f pos kw st).2 = st
        ∧ callMax f pos kw st = callMax f2 pos kw st)
      ∧ (raisedTypeError (callMin g pos kw st).1 = true
        ∧ (callMin g pos kw st).2 = st
        ∧ callMin g pos kw st = callMin g2 pos kw st))
    ∧ ((k, v) ∈ kw → k ∉ (["a", "decimals"] : List String) →
      (raisedTypeError (callRound h pos kw st).1 = true
        ∧ (callRound h pos kw st).2 = st
        ∧ callRound h pos kw st = callRound h2 pos kw st))
    ∧ (3 < pos.length →
      (raisedTypeError (callMax f pos kw st).1 = true
        ∧ (callMax f pos kw st).2 = st
        ∧ callMax f pos kw st = callMax f2 pos kw st)
      ∧ (raisedTypeError (callMin g pos kw st).1 = true
        ∧ (callMin g pos kw st).2 = st
        ∧ callMin g pos kw st = callMin g2 pos kw st))
    ∧ (2 < pos.length →
      raisedTypeError (callRound h pos kw st).1 = true
        ∧ (callRound h pos kw st).2 = st
        ∧ callRound h pos kw st = callRound h2 pos kw st) := by
  have hmaxNames : maxParams.map Param.name = ["a", "axis", "keepdims"] := rfl
  have hroundNames : roundParams.map Param.name = ["a", "decimals"] := rfl
  refine ⟨?_, ?_, ?_, ?_⟩
  · intro hk hn
    have hb : raisedTypeError (bindParams maxParams pos kw) = true :=
      bindParams_unknown_kwarg k v maxParams pos kw hk (by rw [hmaxNames]; exact hn)
    exact ⟨callMax_rejected f f2 pos kw st hb, callMin_rejected g g2 pos kw st hb⟩
  · intro hk hn
    have hb : raisedTypeError (bindParams roundParams pos kw) = true :=
      bindParams_unknown_kwarg k v roundParams pos kw hk
        (by rw [hroundNames]; exact hn)
    exact callRound_rejected h h2 pos kw st hb
  · intro hlen
    have hb : raisedTypeError (bindParams maxParams pos kw) = true :=
      bindParams_pos_overflow maxParams pos kw (by simpa [maxParams] using hlen)
    exact ⟨callMax_rejected f f2 pos kw st hb, callMin_rejected g g2 pos kw st hb⟩
  · intro hlen
    have hb : raisedTypeError (bindParams roundParams pos kw) = true :=
      bindParams_pos_overflow roundParams pos kw
        (by simpa [roundParams] using hlen)
    exact callRound_rejected h h2 pos kw st hb

/-- Witness for C9 at a concrete call: passing the NumPy-only keyword out to
max, min or round raises a TypeError, leaves the state unchanged, and gives
the same outcome whichever delegate stands behind the wrapper. -/
theorem extra_args_type_error_witness :
    (("out", PyVal.vnone) ∈ ([("out", PyVal.vnone)] : Kwargs)
      ∧ "out" ∉ (["a", "axis", "keepdims"] : List String)
      ∧ "out" ∉ (["a", "decimals"] : List String))
    ∧ ((raisedTypeError (callMax amaxModel [PyVal.varr [1]]
          [("out", PyVal.vnone)] ()).1 = true
        ∧ (callMax amaxModel [PyVal.varr [1]] [("out", PyVal.vnone)] ()).2 = ()
        ∧ callMax amaxModel [PyVal.varr [1]] [("out", PyVal.vnone)] () =
            callMax aminModel [PyVal.varr [1]] [("out", PyVal.vnone)] ())
      ∧ (raisedTypeError (callMin amaxModel [PyVal.varr [1]]
          [("out", PyVal.vnone)] ()).1 = true
        ∧ (callMin amaxModel [PyVal.varr [1]] [("out", PyVal.vnone)] ()).2 = ()
        ∧ callMin amaxModel [PyVal.varr [1]] [("out", PyVal.vnone)] () =
            callMin aminModel [PyVal.varr [1]] [("out", PyVal.vnone)] ()))
    ∧ (raisedTypeError (callRound aroundModel [PyVal.varr [1]]
          [("out", PyVal.vnone)] ()).1 = true
        ∧ (callRound aroundModel [PyVal.varr [1]] [("out", PyVal.vnone)] ()).2 = ()
        ∧ callRound aroundModel [PyVal.varr [1]] [("out", PyVal.vnone)] () =
            callRound aroundModel [PyVal.varr [1]] [("out", PyVal.vnone)] ()) := by
  have hmain := extra_args_type_error amaxModel aminModel amaxModel aminModel
    aroundModel aroundModel [PyVal.varr [1]] [("out", PyVal.vnone)] ()
    "out" PyVal.vnone
  exact ⟨⟨by decide, by decide, by decide⟩,
    hmain.1 (by decide) (by decide),
    hmain.2.1 (by decide) (by decide)⟩

/-- C10: the wrappers are deterministic relative to their delegates: they read
no hidden state of their own, so two wrapper calls with equal arguments whose
delegate calls return equal results return equal results, even from different
ambient states and with different delegate implementations. -/
theorem wrapper_deterministic {s : Type} (f g : Delegate3 s)
    (p q : Delegate2 s) (a1 a2 ax1 ax2 k1 k2 d1 d2 : PyVal) (s1 s2 : s)
    (ha : a1 = a2) (hax : ax1 = ax2) (hk : k1 = k2) (hd : d1 = d2)
    (hdel : f a1 ax1 k1 s1 = g a2 ax2 k2 s2)
    (hrnd : p a1 d1 s1 = q a2 d2 s2) :
    NumpyOps.max f a1 ax1 k1 s1 = NumpyOps.max g a2 ax2 k2 s2
    ∧ NumpyOps.min f a1 ax1 k1 s1 = NumpyOps.min g a2 ax2 k2 s2
    ∧ NumpyOps.round p a1 d1 s1 = NumpyOps.round q a2 d2 s2 := by
  subst ha hax hk hd
  exact ⟨hdel, hdel, hrnd⟩

/-- Witness for C10 at concrete inputs: the maximum and minimum model
delegates agree on the one-element array, so the wrappers agree there too. -/
theorem wrapper_deterministic_witness :
    amaxModel (PyVal.varr [5]) PyVal.vnone PyVal.vnone () =
      aminModel (PyVal.varr [5]) PyVal.vnone PyVal.vnone ()
    ∧ (NumpyOps.max amaxModel (PyVal.varr [5]) PyVal.vnone PyVal.vnone () =
        NumpyOps.max aminModel (PyVal.varr [5]) PyVal.vnone PyVal.vnone ()
      ∧ NumpyOps.min amaxModel (PyVal.varr [5]) PyVal.vnone PyVal.vnone () =
        NumpyOps.min aminModel (PyVal.varr [5]) PyVal.vnone PyVal.vnone ()
      ∧ NumpyOps.round aroundModel (PyVal.varr [5]) (PyVal.vint 0) () =
        NumpyOps.round aroundModel (PyVal.varr [5]) (PyVal.vint 0) ()) :=
  ⟨rfl, wrapper_deterministic amaxModel aminModel aroundModel aroundModel
    (PyVal.varr [5]) (PyVal.varr [5]) PyVal.vnone PyVal.vnone PyVal.vnone
    PyVal.vnone (PyVal.vint 0) (PyVal.vint 0) () () rfl rfl rfl rfl rfl rfl⟩

/-- A successful association lookup exhibits a binding of the list. -/
theorem assoc_mem_of_lookup {B : Type} (l : List (String × B)) (a : String)
    (b : B) (h : l.lookup a = Option.some b) : (a, b) ∈ l := by
  induction l with
  | nil => simp [List.lookup] at h
  | cons p t ih =>
      obtain ⟨k, v⟩ := p
      by_cases hak : a = k
      · subst hak
        simp [List.lookup] at h
        subst h
        exact List.mem_cons_self _ _
      · have hbeq : (a == k) = false := by simpa using hak
        rw [List.lookup, hbeq] at h
        exact List.mem_cons_of_mem _ (ih h)

/-- A name with a binding in the list has a successful lookup. -/
theorem assoc_lookup_isSome_of_mem {B : Type} (l : List (String × B))
    (a : String) (b : B) (h : (a, b) ∈ l) : (l.lookup a).isSome = true := by
  induction l with
  | nil => cases h
  | cons p t ih =>
      obtain ⟨k, v⟩ := p
      by_cases hak : a = k
      · subst hak
        simp [List.lookup]
      · have hbeq : (a == k) = false := by simpa using hak
        rcases List.mem_cons.1 h with h1 | h2
        · rw [Prod.mk.injEq] at h1
          exact absurd h1.1 hak
        · rw [List.lookup, hbeq]
          exact ih h2

/-- Every binding a from-import adds comes verbatim from the source module or
was already present. -/
theorem mem_importFrom_elim {ns src : ModuleNS} {x n : String} {o : Nat}
    (h : (n, o) ∈ importFrom ns src x) : (n, o) ∈ ns ∨ (n, o) ∈ src := by
  unfold importFrom at h
  cases hlu : src.lookup x with
  | none =>
      rw [hlu] at h
      exact Or.inl h
  | some v =>
      rw [hlu] at h
      rcases List.mem_cons.1 h with h1 | h2
      · rw [Prod.mk.injEq] at h1
        obtain ⟨hn, ho⟩ := h1
        subst hn
        subst ho
        exact Or.inr (assoc_mem_of_lookup _ _ _ hlu)
      · exact Or.inl h2

/-- Every binding a wildcard import adds comes verbatim from the source module
or was already present. -/
theorem mem_importStar_elim {ns src : ModuleNS} {n : String} {o : Nat}
    (h : (n, o) ∈ importStar ns src) : (n, o) ∈ ns ∨ (n, o) ∈ src := by
  rcases List.mem_append.1 h with h1 | h2
  · exact Or.inr (List.mem_filter.1 h1).1
  · exact Or.inl h2

/-- From-imports keep earlier bindings present. -/
theorem mem_importFrom_of_mem {ns src : ModuleNS} {x : String}
    {p : String × Nat} (h : p ∈ ns) : p ∈ importFrom ns src x := by
  unfold importFrom
  cases src.lookup x with
  | none => exact h
  | some v => exact List.mem_cons_of_mem _ h

/-- Wildcard imports keep earlier bindings present. -/
theorem mem_importStar_of_mem {ns src : ModuleNS} {p : String × Nat}
    (h : p ∈ ns) : p ∈ importStar ns src :=
  List.mem_append_right _ h

/-- A from-import binds the imported name to the object the source holds. -/
theorem mem_importFrom_self {ns src : ModuleNS} {x : String} {o : Nat}
    (h : src.lookup x = Option.some o) : (x, o) ∈ importFrom ns src x := by
  unfold importFrom
  rw [h]
  exact List.mem_cons_self _ _

/-- C6: every re-exported name is accessible from the module namespace — each
public name of the wildcard-imported modules np_array_ops, np_dtypes and
np_math_ops resolves, and so do newaxis, random, np_utils, ndarray, finfo,
promote_types, result_type, absolute_import, division, print_function and the
three defined functions — and re-export preserves identity: every binding
other than the three function definitions is exactly a binding of a source
module, the identical object rather than a copy or wrapper. -/
theorem reexports_identity (S : Sources)
    (maxObj minObj roundObj nx nd fo po ro fa fd fp : Nat)
    (h1 : S.array_ops.lookup "newaxis" = Option.some nx)
    (h2 : S.np_arrays.lookup "ndarray" = Option.some nd)
    (h3 : S.np_utils_ns.lookup "finfo" = Option.some fo)
    (h4 : S.np_utils_ns.lookup "promote_types" = Option.some po)
    (h5 : S.np_utils_ns.lookup "result_type" = Option.some ro)
    (h6 : S.future_ns.lookup "absolute_import" = Option.some fa)
    (h7 : S.future_ns.lookup "division" = Option.some fd)
    (h8 : S.future_ns.lookup "print_function" = Option.some fp) :
    identityPreserving (numpyNamespace S maxObj minObj roundObj)
      [("max", maxObj), ("min", minObj), ("round", roundObj)]
      (sourceBindings S)
    ∧ (allAccessible (publicNS S.np_array_ops)
        (numpyNamespace S maxObj minObj roundObj)
      ∧ allAccessible (publicNS S.np_dtypes)
        (numpyNamespace S maxObj minObj roundObj)
      ∧ allAccessible (publicNS S.np_math_ops)
        (numpyNamespace S maxObj minObj roundObj))
    ∧ (((numpyNamespace S maxObj minObj roundObj).lookup "newaxis").isSome = true
      ∧ ((numpyNamespace S maxObj minObj roundObj).lookup "random").isSome = true
      ∧ ((numpyNamespace S maxObj minObj roundObj).lookup "np_utils").isSome = true
      ∧ ((numpyNamespace S maxObj minObj roundObj).lookup "ndarray").isSome = true
      ∧ ((numpyNamespace S maxObj minObj roundObj).lookup "finfo").isSome = true
      ∧ ((numpyNamespace S maxObj minObj roundObj).lookup "promote_types").isSome = true
      ∧ ((numpyNamespace S maxObj minObj roundObj).lookup "result_type").isSome = true
      ∧ ((numpyNamespace S maxObj minObj roundObj).lookup "max").isSome = true
      ∧ ((numpyNamespace S maxObj minObj roundObj).lookup "min").isSome = true
      ∧ ((numpyNamespace S maxObj minObj roundObj).lookup "round").isSome = true
      ∧ ((numpyNamespace S maxObj minObj roundObj).lookup "absolute_import").isSome = true
      ∧ ((numpyNamespace S maxObj minObj roundObj).lookup "division").isSome = true
      ∧ ((numpyNamespace S maxObj minObj roundObj).lookup "print_function").isSome = true) := by
  refine ⟨?_, ⟨?_, ?_, ?_⟩, ?_⟩
  · intro p hp
    obtain ⟨n, o⟩ := p
    simp only [numpyNamespace] at hp
    rcases List.mem_cons.1 hp with hp | hp
    · left; simp [hp]
    rcases List.mem_cons.1 hp with hp | hp
    · left; simp [hp]
    rcases List.mem_cons.1 hp with hp | hp
    · left; simp [hp]
    rcases mem_importFrom_elim hp with hp | hp
    rotate_left
    · right
      simp only [sourceBindings, List.mem_cons, List.mem_append]
      tauto
    rcases mem_importFrom_elim hp with hp | hp
    rotate_left
    · right
      simp only [sourceBindings, List.mem_cons, List.mem_append]
      tauto
    rcases mem_importFrom_elim hp with hp | hp
    rotate_left
    · right
      simp only [sourceBindings, List.mem_cons, List.mem_append]
      tauto
    rcases mem_importStar_elim hp with hp | hp
    rotate_left
    · right
      simp only [sourceBindings, List.mem_cons, List.mem_append]
      tauto
    rcases mem_importStar_elim hp with hp | hp
    rotate_left
    · right
      simp only [sourceBindings, List.mem_cons, List.mem_append]
      tauto
    rcases mem_importFrom_elim hp with hp | hp
    rotate_left
    · right
      simp only [sourceBindings, List.mem_cons, List.mem_append]
      tauto
    rcases mem_importStar_elim hp with hp | hp
    rotate_left
    · right
      simp only [sourceBindings, List.mem_cons, List.mem_append]
      tauto
    rcases List.mem_cons.1 hp with hp | hp
    · right
      simp only [sourceBindings, List.mem_cons, List.mem_append]
      tauto
    rcases List.mem_cons.1 hp with hp | hp
    · right
      simp only [sourceBindings, List.mem_cons, List.mem_append]
      tauto
    rcases mem_importFrom_elim hp with hp | hp
    rotate_left
    · right
      simp only [sourceBindings, List.mem_cons, List.mem_append]
      tauto
    rcases mem_importFrom_elim hp with hp | hp
    rotate_left
    · right
      simp only [sourceBindings, List.mem_cons, List.mem_append]
      tauto
    rcases mem_importFrom_elim hp with hp | hp
    rotate_left
    · right
      simp only [sourceBindings, List.mem_cons, List.mem_append]
      tauto
    rcases mem_importFrom_elim hp with hp | hp
    · cases hp
    · right
      simp only [sourceBindings, List.mem_cons, List.mem_append]
      tauto
  · intro p hp
    obtain ⟨a, b⟩ := p
    refine assoc_lookup_isSome_of_mem _ a b ?_
    simp only [numpyNamespace]
    apply List.mem_cons_of_mem
    apply List.mem_cons_of_mem
    apply List.mem_cons_of_mem
    apply mem_importFrom_of_mem
    apply mem_importFrom_of_mem
    apply mem_importFrom_of_mem
    apply mem_importStar_of_mem
    apply mem_importStar_of_mem
    apply mem_importFrom_of_mem
    exact List.mem_append_left _ hp
  · intro p hp
    obtain ⟨a, b⟩ := p
    refine assoc_lookup_isSome_of_mem _ a b ?_
    simp only [numpyNamespace]
    apply List.mem_cons_of_mem
    apply List.mem_cons_of_mem
    apply List.mem_cons_of_mem
    apply mem_importFrom_of_mem
    apply mem_importFrom_of_mem
    apply mem_importFrom_of_mem
    apply mem_importStar_of_mem
    exact List.mem_append_left _ hp
  · intro p hp
    obtain ⟨a, b⟩ := p
    refine assoc_lookup_isSome_of_mem _ a b ?_
    simp only [numpyNamespace]
    apply List.mem_cons_of_mem
    apply List.mem_cons_of_mem
    apply List.mem_cons_of_mem
    apply mem_importFrom_of_mem
    apply mem_importFrom_of_mem
    apply mem_importFrom_of_mem
    exact List.mem_append_left _ hp
  · have mnewaxis : ("newaxis", nx) ∈ numpyNamespace S maxObj minObj roundObj := by
      simp only [numpyNamespace]
      apply List.mem_cons_of_mem
      apply List.mem_cons_of_mem
      apply List.mem_cons_of_mem
      apply mem_importFrom_of_mem
      apply mem_importFrom_of_mem
      apply mem_importFrom_of_mem
      apply mem_importStar_of_mem
      apply mem_importStar_of_mem
      apply mem_importFrom_of_mem
      apply mem_importStar_of_mem
      apply List.mem_cons_of_mem
      apply List.mem_cons_of_mem
      exact mem_importFrom_self h1
    have mrandom : ("random", S.np_random_obj) ∈
        numpyNamespace S maxObj minObj roundObj := by
      simp only [numpyNamespace]
      apply List.mem_cons_of_mem
      apply List.mem_cons_of_mem
      apply List.mem_cons_of_mem
      apply mem_importFrom_of_mem
      apply mem_importFrom_of_mem
      apply mem_importFrom_of_mem
      apply mem_importStar_of_mem
      apply mem_importStar_of_mem
      apply mem_importFrom_of_mem
      apply mem_importStar_of_mem
      apply List.mem_cons_of_mem
      exact List.mem_cons_self _ _
    have mutils : ("np_utils", S.np_utils_obj) ∈
        numpyNamespace S maxObj minObj roundObj := by
      simp only [numpyNamespace]
      apply List.mem_cons_of_mem
      apply List.mem_cons_of_mem
      apply List.mem_cons_of_mem
      apply mem_importFrom_of_mem
      apply mem_importFrom_of_mem
      apply mem_importFrom_of_mem
      apply mem_importStar_of_mem
      apply mem_importStar_of_mem
      apply mem_importFrom_of_mem
      apply mem_importStar_of_mem
      exact List.mem_cons_self _ _
    have mndarray : ("ndarray", nd) ∈ numpyNamespace S maxObj minObj roundObj := by
      simp only [numpyNamespace]
      apply List.mem_cons_of_mem
      apply List.mem_cons_of_mem
      apply List.mem_cons_of_mem
      apply mem_importFrom_of_mem
      apply mem_importFrom_of_mem
      apply mem_importFrom_of_mem
      apply mem_importStar_of_mem
      apply mem_importStar_of_mem
      exact mem_importFrom_self h2
    have mfinfo : ("finfo", fo) ∈ numpyNamespace S maxObj minObj roundObj := by
      simp only [numpyNamespace]
      apply List.mem_cons_of_mem
      apply List.mem_cons_of_mem
      apply List.mem_cons_of_mem
      apply mem_importFrom_of_mem
      apply mem_importFrom_of_mem
      exact mem_importFrom_self h3
    have mpromote : ("promote_types", po) ∈
        numpyNamespace S maxObj minObj roundObj := by
      simp only [numpyNamespace]
      apply List.mem_cons_of_mem
      apply List.mem_cons_of_mem
      apply List.mem_cons_of_mem
      apply mem_importFrom_of_mem
      exact mem_importFrom_self h4
    have mresult : ("result_type", ro) ∈
        numpyNamespace S maxObj minObj roundObj := by
      simp only [numpyNamespace]
      apply List.mem_cons_of_mem
      apply List.mem_cons_of_mem
      apply List.mem_cons_of_mem
      exact mem_importFrom_self h5
    have mmax : ("max", maxObj) ∈ numpyNamespace S maxObj minObj roundObj := by
      simp only [numpyNamespace]
      apply List.mem_cons_of_mem
      apply List.mem_cons_of_mem
      exact List.mem_cons_self _ _
    have mmin : ("min", minObj) ∈ numpyNamespace S maxObj minObj roundObj := by
      simp only [numpyNamespace]
      apply List.mem_cons_of_mem
      exact List.mem_cons_self _ _
    have mround : ("round", roundObj) ∈
        numpyNamespace S maxObj minObj roundObj := by
      simp only [numpyNamespace]
      exact List.mem_cons_self _ _
    have mabsolute : ("absolute_import", fa) ∈
        numpyNamespace S maxObj minObj roundObj := by
      simp only [numpyNamespace]
      apply List.mem_cons_of_mem
      apply List.mem_cons_of_mem
      apply List.mem_cons_of_mem
      apply mem_importFrom_of_mem
      apply mem_importFrom_of_mem
      apply mem_importFrom_of_mem
      apply mem_importStar_of_mem
      apply mem_importStar_of_mem
      apply mem_importFrom_of_mem
      apply mem_importStar_of_mem
      apply List.mem_cons_of_mem
      apply List.mem_cons_of_mem
      apply mem_importFrom_of_mem
      apply mem_importFrom_of_mem
      apply mem_importFrom_of_mem
      exact mem_importFrom_self h6
    have mdivision : ("division", fd) ∈
        numpyNamespace S maxObj minObj roundObj := by
      simp only [numpyNamespace]
      apply List.mem_cons_of_mem
      apply List.mem_cons_of_mem
      apply List.mem_cons_of_mem
      apply mem_importFrom_of_mem
      apply mem_importFrom_of_mem
      apply mem_importFrom_of_mem
      apply mem_importStar_of_mem
      apply mem_importStar_of_mem
      apply mem_importFrom_of_mem
      apply mem_importStar_of_mem
      apply List.mem_cons_of_mem
      apply List.mem_cons_of_mem
      apply mem_importFrom_of_mem
      apply mem_importFrom_of_mem
      exact mem_importFrom_self h7
    have mprint : ("print_function", fp) ∈
        numpyNamespace S maxObj minObj roundObj := by
      simp only [numpyNamespace]
      apply List.mem_cons_of_mem
      apply List.mem_cons_of_mem
      apply List.mem_cons_of_mem
      apply mem_importFrom_of_mem
      apply mem_importFrom_of_mem
      apply mem_importFrom_of_mem
      apply mem_importStar_of_mem
      apply mem_importStar_of_mem
      apply mem_importFrom_of_mem
      apply mem_importStar_of_mem
      apply List.mem_cons_of_mem
      apply List.mem_cons_of_mem
      apply mem_importFrom_of_mem
      exact mem_importFrom_self h8
    exact ⟨assoc_lookup_isSome_of_mem _ _ _ mnewaxis,
      assoc_lookup_isSome_of_mem _ _ _ mrandom,
      assoc_lookup_isSome_of_mem _ _ _ mutils,
      assoc_lookup_isSome_of_mem _ _ _ mndarray,
      assoc_lookup_isSome_of_mem _ _ _ mfinfo,
      assoc_lookup_isSome_of_mem _ _ _ mpromote,
      assoc_lookup_isSome_of_mem _ _ _ mresult,
      assoc_lookup_isSome_of_mem _ _ _ mmax,
      assoc_lookup_isSome_of_mem _ _ _ mmin,
      assoc_lookup_isSome_of_mem _ _ _ mround,
      assoc_lookup_isSome_of_mem _ _ _ mabsolute,
      assoc_lookup_isSome_of_mem _ _ _ mdivision,
      assoc_lookup_isSome_of_mem _ _ _ mprint⟩

/-- Witness for C6 at the concrete sample instantiation of the imported
modules. -/
theorem reexports_identity_witness :
    (sampleSources.array_ops.lookup "newaxis" = Option.some 1
      ∧ sampleSources.np_arrays.lookup "ndarray" = Option.some 20
      ∧ sampleSources.np_utils_ns.lookup "finfo" = Option.some 5
      ∧ sampleSources.np_utils_ns.lookup "promote_types" = Option.some 6
      ∧ sampleSources.np_utils_ns.lookup "result_type" = Option.some 7
      ∧ sampleSources.future_ns.lookup "absolute_import" = Option.some 50
      ∧ sampleSources.future_ns.lookup "division" = Option.some 51
      ∧ sampleSources.future_ns.lookup "print_function" = Option.some 52)
    ∧ (identityPreserving (numpyNamespace sampleSources 100 101 102)
        [("max", 100), ("min", 101), ("round", 102)]
        (sourceBindings sampleSources)
      ∧ (allAccessible (publicNS sampleSources.np_array_ops)
          (numpyNamespace sampleSources 100 101 102)
        ∧ allAccessible (publicNS sampleSources.np_dtypes)
          (numpyNamespace sampleSources 100 101 102)
        ∧ allAccessible (publicNS sampleSources.np_math_ops)
          (numpyNamespace sampleSources 100 101 102))
      ∧ (((numpyNamespace sampleSources 100 101 102).lookup "newaxis").isSome = true
        ∧ ((numpyNamespace sampleSources 100 101 102).lookup "random").isSome = true
        ∧ ((numpyNamespace sampleSources 100 101 102).lookup "np_utils").isSome = true
        ∧ ((numpyNamespace sampleSources 100 101 102).lookup "ndarray").isSome = true
        ∧ ((numpyNamespace sampleSources 100 101 102).lookup "finfo").isSome = true
        ∧ ((numpyNamespace sampleSources 100 101 102).lookup "promote_types").isSome = true
        ∧ ((numpyNamespace sampleSources 100 101 102).lookup "result_type").isSome = true
        ∧ ((numpyNamespace sampleSources 100 101 102).lookup "max").isSome = true
        ∧ ((numpyNamespace sampleSources 100 101 102).lookup "min").isSome = true
        ∧ ((numpyNamespace sampleSources 100 101 102).lookup "round").isSome = true
        ∧ ((numpyNamespace sampleSources 100 101 102).lookup "absolute_import").isSome = true
        ∧ ((numpyNamespace sampleSources 100 101 102).lookup "division").isSome = true
        ∧ ((numpyNamespace sampleSources 100 101 102).lookup "print_function").isSome = true)) :=
  ⟨⟨rfl, rfl, rfl, rfl, rfl, rfl, rfl, rfl⟩,
    reexports_identity sampleSources 100 101 102 1 20 5 6 7 50 51 52
      rfl rfl rfl rfl rfl rfl rfl rfl⟩

/-- Counterexample for C7 as stated: at the concrete sample instantiation the
module namespace exposes the names np_utils, newaxis, ndarray,
absolute_import, division and print_function, none of which belong to the set
the claim enumerates (array functions, dtypes, math operations, random, finfo,
promote_types, result_type, max, min, round and nothing else). -/
theorem exposed_names_counterexample :
    ("np_utils" ∈ nsNames (numpyNamespace sampleSources 100 101 102)
      ∧ "np_utils" ∉ claimedNames sampleSources)
    ∧ ("newaxis" ∈ nsNames (numpyNamespace sampleSources 100 101 102)
      ∧ "newaxis" ∉ claimedNames sampleSources)
    ∧ ("ndarray" ∈ nsNames (numpyNamespace sampleSources 100 101 102)
      ∧ "ndarray" ∉ claimedNames sampleSources)
    ∧ ("absolute_import" ∈ nsNames (numpyNamespace sampleSources 100 101 102)
      ∧ "absolute_import" ∉ claimedNames sampleSources)
    ∧ ("division" ∈ nsNames (numpyNamespace sampleSources 100 101 102)
      ∧ "division" ∉ claimedNames sampleSources)
    ∧ ("print_function" ∈ nsNames (numpyNamespace sampleSources 100 101 102)
      ∧ "print_function" ∉ claimedNames sampleSources) := by
  refine ⟨⟨?_, ?_⟩, ⟨?_, ?_⟩, ⟨?_, ?_⟩, ⟨?_, ?_⟩, ⟨?_, ?_⟩, ⟨?_, ?_⟩⟩ <;>
    decide

/-- C7 as amended: the set of names the module exposes consists of the claimed
enumeration — array construction and manipulation functions, the dtype set,
math operations, the random submodule, finfo, promote_types, result_type, and
the aliases max, min, round — together with the re-exported names newaxis and
ndarray, the helper submodule np_utils, and the future-feature names
absolute_import, division and print_function, and nothing else. -/
theorem exposed_names_amended (S : Sources)
    (maxObj minObj roundObj nx nd fo po ro fa fd fp : Nat)
    (h1 : S.array_ops.lookup "newaxis" = Option.some nx)
    (h2 : S.np_arrays.lookup "ndarray" = Option.some nd)
    (h3 : S.np_utils_ns.lookup "finfo" = Option.some fo)
    (h4 : S.np_utils_ns.lookup "promote_types" = Option.some po)
    (h5 : S.np_utils_ns.lookup "result_type" = Option.some ro)
    (h6 : S.future_ns.lookup "absolute_import" = Option.some fa)
    (h7 : S.future_ns.lookup "division" = Option.some fd)
    (h8 : S.future_ns.lookup "print_function" = Option.some fp)
    (n : String) :
    n ∈ nsNames (numpyNamespace S maxObj minObj roundObj) ↔
      (n ∈ claimedNames S
        ∨ n ∈ (["newaxis", "ndarray", "np_utils", "absolute_import",
            "division", "print_function"] : List String)) := by
  simp only [numpyNamespace, nsNames, claimedNames, importStar, importFrom,
    h1, h2, h3, h4, h5, h6, h7, h8]
  simp only [List.map_append, List.map_cons, List.mem_append, List.mem_cons,
    List.map_nil, List.mem_singleton, List.not_mem_nil, or_false]
  tauto

/-- Witness for C7 as amended, at the concrete sample instantiation and the
name np_utils. -/
theorem exposed_names_amended_witness :
    (sampleSources.array_ops.lookup "newaxis" = Option.some 1
      ∧ sampleSources.np_arrays.lookup "ndarray" = Option.some 20
      ∧ sampleSources.np_utils_ns.lookup "finfo" = Option.some 5
      ∧ sampleSources.np_utils_ns.lookup "promote_types" = Option.some 6
      ∧ sampleSources.np_utils_ns.lookup "result_type" = Option.some 7
      ∧ sampleSources.future_ns.lookup "absolute_import" = Option.some 50
      ∧ sampleSources.future_ns.lookup "division" = Option.some 51
      ∧ sampleSources.future_ns.lookup "print_function" = Option.some 52)
    ∧ ("np_utils" ∈ nsNames (numpyNamespace sampleSources 100 101 102) ↔
      ("np_utils" ∈ claimedNames sampleSources
        ∨ "np_utils" ∈ (["newaxis", "ndarray", "np_utils", "absolute_import",
            "division", "print_function"] : List String))) :=
  ⟨⟨rfl, rfl, rfl, rfl, rfl, rfl, rfl, rfl⟩,
    exposed_names_amended sampleSources 100 101 102 1 20 5 6 7 50 51 52
      rfl rfl rfl rfl rfl rfl rfl rfl "np_utils"⟩

end NumpyOps
